import Mathlib

/-!
Verification of the request-orchestration layer of the jarvis-3d repository:
a shallow embedding, in Lean 4, of the response caches, the cache-key
derivation, the provider-response normalizer, the primary/fallback model
race, the speech routing and fallback logic, the timeout-bounded fetch and
the HTTP validation prefixes, together with theorems settling the stated
properties of that code.

Conventions of the embedding:
* JavaScript values flowing through the dynamically typed parts of the code
  (request bodies, provider responses) are modelled by the inductive `Json`
  type below, with `undefined` and `null` kept distinct, and JavaScript
  truthiness modelled by `truthy`.
* A JavaScript `Map` is modelled as a key-ordered association list
  (`List (String × _)`): `set` of a fresh key appends, `set` of a present
  key overwrites in place, and `map.keys().next().value` is the head key,
  matching the insertion-order iteration of `Map`.
* Property accesses that would throw a `TypeError` in JavaScript (accesses
  on `null`/`undefined`) are modelled in the `Except Unit` monad, so that
  "this code never raises" is a provable statement, not a typing artifact.
* Timestamps are integers (milliseconds), as produced by `Date.now()`.
-/

/-- JavaScript values, as needed by the route handlers: `undefined` and
`null` are distinct (`x === null` is false for `undefined`). -/
inductive Json where
  | undefined
  | null
  | bool (b : Bool)
  | num (n : Int)
  | str (s : String)
  | arr (elems : List Json)
  | obj (fields : List (String × Json))

/-- JavaScript truthiness: `undefined`, `null`, `false`, `0` and the empty
string are falsy; every object and array (even empty) is truthy. -/
def truthy : Json → Bool
  | .undefined => false
  | .null => false
  | .bool b => b
  | .num n => n != 0
  | .str s => s != ""
  | .arr _ => true
  | .obj _ => true

/-- `x === null` (strict equality against the `null` literal). -/
def isNull : Json → Bool
  | .null => true
  | _ => false

/-- Property access `v[k]`: throws (`.error`) when the receiver is
`null`/`undefined`, yields the field for objects, `undefined` otherwise. -/
def jget : Json → String → Except Unit Json
  | .undefined, _ => .error ()
  | .null, _ => .error ()
  | .obj fields, k => .ok ((fields.lookup k).getD .undefined)
  | _, _ => .ok .undefined

/-- Index access `v[i]`: throws on `null`/`undefined`, yields the element
(or `undefined` past the end) for arrays, a one-character string for
strings, `undefined` otherwise. -/
def jindex : Json → Nat → Except Unit Json
  | .undefined, _ => .error ()
  | .null, _ => .error ()
  | .arr elems, i => .ok (elems.getD i .undefined)
  | .str s, i => .ok (match s.data.get? i with
      | some c => .str (String.singleton c)
      | none => .undefined)
  | .obj fields, i => .ok ((fields.lookup (toString i)).getD .undefined)
  | _, _ => .ok .undefined

/-! ## Configuration constants (src/app/utils/config.ts) -/

def API_TIMEOUT : Int := 60000

def LMNT_TIMEOUT : Int := 30000

def FETCH_TIMEOUT : Int := 15000

def OPENAI_CACHE_SIZE : Nat := 50

def OPENAI_CACHE_EXPIRATION : Int := 5 * 60 * 1000

def LMNT_CACHE_SIZE : Nat := 30

def LMNT_CACHE_EXPIRATION : Int := 30 * 60 * 1000

def ENABLE_PARALLEL_REQUESTS : Bool := true

def DISABLE_LMNT_ON_MOBILE : Bool := true

def DEFAULT_LMNT_VOICE : String := "lily"

/-! ## JavaScript `Map` model (insertion-ordered association list) -/

/-- `m.set(k, v)`: overwrite in place when `k` is present (keeping its
iteration position), append otherwise. -/
def jsMapSet (m : List (String × α)) (k : String) (v : α) : List (String × α) :=
  if m.any (fun p => p.1 == k) then
    m.map (fun p => if p.1 == k then (k, v) else p)
  else
    m ++ [(k, v)]

/-- `m.delete(k)`. -/
def jsMapDelete (m : List (String × α)) (k : String) : List (String × α) :=
  m.filter (fun p => p.1 ≠ k)

/-- `m.keys().next().value`: the first inserted key, or `undefined`
(modelled as `none`) when the map is empty. -/
def jsMapOldestKey (m : List (String × α)) : Option String :=
  m.head?.map (fun p => p.1)

/-- The capacity-evicting insert inlined in both route handlers
(src/app/api/openai/route.ts lines 238-250 and the cached LMNT route):
`if (cache.size >= CAP) { const oldestKey = cache.keys().next().value;
if (oldestKey) cache.delete(oldestKey); } cache.set(key, entry)`.
Note that `if (oldestKey)` skips the delete when the oldest key is the
empty string (falsy) — neither route can store an empty-string key. -/
def cachePut (cap : Nat) (m : List (String × α)) (k : String) (v : α) :
    List (String × α) :=
  let m1 :=
    if m.length ≥ cap then
      match jsMapOldestKey m with
      | some k0 => if k0 ≠ "" then jsMapDelete m k0 else m
      | none => m
    else m
  jsMapSet m1 k v

/-- Replay a sequence of `put` operations starting from the empty cache. -/
def putMany (cap : Nat) (ops : List (String × α)) : List (String × α) :=
  ops.foldl (fun m p => cachePut cap m p.1 p.2) []

/-! ## Cache lookups (`get`) of the two routes -/

/-- A chat-cache entry: `{ response, timestamp }`. -/
structure OpenAICacheEntry where
  response : Json
  timestamp : Int

/-- An audio-cache entry: `{ audioBuffer, timestamp }`; the buffer is a
byte sequence. -/
structure LmntCacheEntry where
  audioBuffer : List Nat
  timestamp : Int

/-- `Map.get` (first association for the key). -/
def jsMapGet (m : List (String × α)) (k : String) : Option α :=
  (m.find? (fun p => p.1 == k)).map (fun p => p.2)

/-- The chat-cache lookup in the openai route (lines 139-146):
`if (cache.has(key)) { const e = cache.get(key);
if (e && now - e.timestamp < OPENAI_CACHE_EXPIRATION) return e.response }`;
an entry that fails the freshness test is treated as absent. -/
def openaiCacheGet (m : List (String × OpenAICacheEntry)) (k : String)
    (now : Int) : Option Json :=
  match jsMapGet m k with
  | some e => if now - e.timestamp < OPENAI_CACHE_EXPIRATION then some e.response else none
  | none => none

/-- The audio-cache lookup in the cached LMNT route:
`if (cache.has(key)) { const e = cache.get(key); if (e) return e... }`;
the entry is returned whenever it is present — no freshness test. -/
def lmntCacheGet (m : List (String × LmntCacheEntry)) (k : String) :
    Option LmntCacheEntry :=
  match jsMapGet m k with
  | some e => some e
  | none => none

/-- `cleanupCache()` of the openai route: delete every entry strictly older
than the expiration. -/
def cleanupCache (m : List (String × OpenAICacheEntry)) (now : Int) :
    List (String × OpenAICacheEntry) :=
  m.filter (fun p => ¬ (now - p.2.timestamp > OPENAI_CACHE_EXPIRATION))

/-! ## Chat message formatting and cache-key derivation
(src/app/api/openai/route.ts) -/

/-- The default system prompt (src/app/utils/systemPrompt.ts). -/
def JARVIS_SYSTEM_PROMPT : String :=
  "You are Jarvis, an advanced AI assistant with a 3D visual representation and voice capabilities.\nYou were created to assist users with information, answer questions, and provide helpful responses.\nWhen asked about your identity, always remember that you are Jarvis.\nYour responses should be helpful, informative, and somewhat concise.\nTry to maintain a slightly formal but friendly tone, similar to the Jarvis AI from Iron Man.\n\nIMPORTANT: You have voice capabilities and can speak to the user. When users ask if you can only text them, \ninform them that you can both text AND speak to them using your voice synthesis capabilities.\nOn desktop devices, you have three voice options: male, female, and an advanced voice.\nOn mobile devices, only male and female voices are available due to technical limitations.\n\nThe user can toggle between voice options using a button in the interface.\nYou can see and hear the user when they enable their microphone."

/-- An incoming `{ role, content }` message at the HTTP boundary (the
client always sends plain string contents). -/
structure InMsg where
  role : String
  content : String
deriving DecidableEq

/-- A message after the handler reshapes it for the provider:
`{ role, content: [\x7b type: "text", text \x7d] }` — the only content shape
ever constructed in the `POST` handler, so the nested one-element array is
kept implicit and only its `text` field is carried. -/
structure ApiMessage where
  role : String
  text : String
deriving DecidableEq

/-- The per-message conversion at lines 118-125: `system` becomes
`developer`, the content is wrapped in the nested text shape. -/
def convertMsg (m : InMsg) : ApiMessage :=
  ⟨if m.role == "system" then "developer" else m.role, m.content⟩

/-- `messages.some(msg => msg.role === "system")` on the original list. -/
def hasSystem (msgs : List InMsg) : Bool :=
  msgs.any (fun m => m.role == "system")

/-- The default system message unshifted when the client sent none. -/
def defaultSystemMessage : ApiMessage :=
  ⟨"developer", JARVIS_SYSTEM_PROMPT⟩

/-- The `messages` branch of the `POST` handler (lines 116-136): map every
message through `convertMsg`, then prepend the default system message iff
the original list had no `system`-role message. -/
def formatMessages (msgs : List InMsg) : List ApiMessage :=
  let api := msgs.map convertMsg
  if !hasSystem msgs then defaultSystemMessage :: api else api

/-- JSON string escaping as performed by `JSON.stringify` on the
characters that can occur here. -/
def escapeChar (c : Char) : String :=
  if c == '\"' then "\\\""
  else if c == '\\' then "\\\\"
  else if c == '\n' then "\\n"
  else if c == '\r' then "\\r"
  else if c == '\t' then "\\t"
  else String.singleton c

/-- `JSON.stringify` of a string value. -/
def jsonQuote (s : String) : String :=
  "\"" ++ String.join (s.data.map escapeChar) ++ "\""

/-- `JSON.stringify([\x7b type: "text", text: "" \x7d])`: the string the
content extraction of `generateCacheKey` falls back to when the wrapped
text is empty (falsy). -/
def emptyNestedJson : String :=
  "[\x7b\"type\":\"text\",\"text\":\"\"\x7d]"

/-- The content component of a cache-key entry, for the nested content
shape `[\x7b type: "text", text \x7d]` produced by the handler: the
extraction `(Array.isArray(content) && content[0] && content[0].text) ?
content[0].text : JSON.stringify(content)` yields the text when it is
truthy and the stringified wrapper otherwise. -/
def keyContent (text : String) : String :=
  if text != "" then text else emptyNestedJson

/-- One entry of the stringified key array:
`\x7b "role": role || "user", "content": ... \x7d`. -/
def keyEntry (m : ApiMessage) : String :=
  "\x7b\"role\":" ++ jsonQuote (if m.role != "" then m.role else "user") ++
    ",\"content\":" ++ jsonQuote (keyContent m.text) ++ "\x7d"

/-- `generateCacheKey` (lines 44-51): `JSON.stringify` of the normalized
`\x7b role, content \x7d` array. -/
def generateCacheKey (msgs : List ApiMessage) : String :=
  "[" ++ String.intercalate "," (msgs.map keyEntry) ++ "]"

/-- The cache key the `POST` handler derives for a client message list:
`generateCacheKey(apiMessages)` after the formatting step. -/
def derivedCacheKey (msgs : List InMsg) : String :=
  generateCacheKey (formatMessages msgs)

/-! ## Provider-response normalizer `extractResponseText`
(src/app/api/openai/route.ts lines 54-78) -/

/-- Placeholder for a missing/empty response envelope. -/
def respErrNoResponse : String := "Sorry, I did not receive a proper response."

/-- Placeholder for an unrecognized response shape. -/
def respErrBadFormat : String := "Sorry, I could not understand the response format."

/-- The `Array.isArray(content) && content[0] && content[0].text` arm of
the o3-mini branch: `some` of the nested text when all three tests pass,
`none` when any fails (falling through to the `typeof` test). -/
def nestedArrayText (content : Json) : Except Unit (Option Json) :=
  match content with
  | .arr elems =>
    let e0 := elems.getD 0 .undefined
    if truthy e0 then
      match jget e0 "text" with
      | .error e => .error e
      | .ok t => .ok (if truthy t then some t else none)
    else .ok none
  | _ => .ok none

/-- The `choice.message === null && choice.content` branch of
`extractResponseText` together with the final fallthrough: nested array
text, else a plain string content, else the unrecognized-shape
placeholder. -/
def extractO3 (choice message : Json) : Except Unit Json :=
  if isNull message then
    match jget choice "content" with
    | .error e => .error e
    | .ok content =>
      if truthy content then
        match nestedArrayText content with
        | .error e => .error e
        | .ok (some t) => .ok t
        | .ok none =>
          match content with
          | .str s => .ok (.str s)
          | _ => .ok (.str respErrBadFormat)
      else .ok (.str respErrBadFormat)
  else .ok (.str respErrBadFormat)

/-- The body of `extractResponseText` from `const choice = data.choices[0]`
on: prefer `choice.message.content` when both are truthy, else the o3-mini
branch. -/
def extractFromChoice (choice : Json) : Except Unit Json :=
  if !truthy choice then .ok (.str respErrNoResponse)
  else
    match jget choice "message" with
    | .error e => .error e
    | .ok message =>
      if truthy message then
        match jget message "content" with
        | .error e => .error e
        | .ok c => if truthy c then .ok c else extractO3 choice message
      else extractO3 choice message

/-- `extractResponseText(data)`: guard the envelope, prefer
`choices[0].message.content`, fall back to the o3-mini shape
(`message === null` with a sibling `content`), else a placeholder.
Evaluation order and truthiness tests follow the source line by line;
a `.error` result would mean the JavaScript code throws a `TypeError`. -/
def extractResponseText (data : Json) : Except Unit Json :=
  if !truthy data then .ok (.str respErrNoResponse)
  else
    match jget data "choices" with
    | .error e => .error e
    | .ok choices =>
      if !truthy choices then .ok (.str respErrNoResponse)
      else
        match jindex choices 0 with
        | .error e => .error e
        | .ok choice => extractFromChoice choice

/-! ## Parallel model race and result selection
(src/app/api/openai/route.ts lines 155-203, 253-259) -/

/-- `.catch(err => null)` on a provider promise: a rejection settles as a
fulfilled `null`, a success as the completion value. -/
def catchToNull (r : Except Unit Json) : Json :=
  match r with
  | .ok c => c
  | .error _ => .null

/-- The selection after `Promise.allSettled`: prefer the primary when its
settled value is truthy, else the fallback, else throw
(`"Both model requests failed"`). -/
def parallelSelect (primary fallback : Except Unit Json) : Except Unit Json :=
  let p := catchToNull primary
  let f := catchToNull fallback
  if truthy p then .ok p
  else if truthy f then .ok f
  else .error ()

/-- An HTTP response produced by a route handler. -/
structure HttpResponse where
  status : Nat
  body : Json

/-- The outer `catch` of the `POST` handler: a thrown error becomes the
500 envelope `{ error: "Failed to process request" }`; a completion is
returned as `NextResponse.json(completion)` (status 200). -/
def chatHttpResult (primary fallback : Except Unit Json) : HttpResponse :=
  match parallelSelect primary fallback with
  | .ok completion => ⟨200, completion⟩
  | .error _ => ⟨500, .obj [("error", .str "Failed to process request")]⟩

/-! ## Speech routing (`speak`) — src/app/components/VoiceRecognition.tsx
lines 512-518 and the src/unnamed/part_005 variant lines 564-573 -/

/-- Where a `speak(text)` call is routed. -/
inductive SpeakRoute where
  | lmntNetwork
  | browserTTS
  | noOp
deriving DecidableEq

/-- `speak` of src/app/components/VoiceRecognition.tsx: the `lmnt`
preference goes straight to `speakWithLMNT` (the network path) with no
mobile test; `isMobile` is accepted here to state the routing property but
the source never consults it for this decision. -/
def speakVR (preferredGender : String) (_isMobile : Bool)
    (speechSynthAvailable : Bool) : SpeakRoute :=
  if preferredGender == "lmnt" then .lmntNetwork
  else if speechSynthAvailable then .browserTTS
  else .noOp

/-- `speak` of the src/unnamed/part_005 variant: the network path is taken
only when the preference is `lmnt` AND the device is not mobile; on mobile
the call silently downgrades to the browser-TTS path. -/
def speakP5 (preferredGender : String) (isMobile : Bool)
    (speechSynthAvailable : Bool) : SpeakRoute :=
  if preferredGender == "lmnt" && !isMobile then .lmntNetwork
  else if speechSynthAvailable then .browserTTS
  else .noOp

/-! ## `speakWithLMNT` state effects
(src/app/components/VoiceRecognition.tsx lines 270-510, src/unnamed/part_005
lines 277-501) -/

/-- Outcome of the bounded network speech call: success, or one of the
failure modes, all of which land in the same `catch`. -/
inductive NetOutcome where
  | ok
  | timeout
  | networkError
  | providerError (status : Nat)
deriving DecidableEq

/-- `true` on every non-success outcome. -/
def isNetFailure : NetOutcome → Bool
  | .ok => false
  | _ => true

/-- Environment of one `speakWithLMNT` call. -/
structure SpeakEnv where
  audioElementPresent : Bool
  outcome : NetOutcome
  speechSynthAvailable : Bool
  fallbackThrows : Bool
deriving DecidableEq

/-- Observable result of one `speakWithLMNT` call, starting from the idle
state: the final speaking/loading flags, whether playback of network audio
was started, which text (if any) was handed to the on-device fallback, and
whether the fallback utterance got `onend`/`onerror` handlers that reset
the speaking flag. -/
structure SpeakState where
  speaking : Bool
  lmntLoading : Bool
  networkCallIssued : Bool
  networkPlaybackStarted : Bool
  fallbackSpoken : Option String
  fallbackHandlersReset : Bool
deriving DecidableEq

/-- The state when `speakWithLMNT` returns without doing anything
(`if (!audioElement) return`). -/
def idleState : SpeakState :=
  ⟨false, false, false, false, none, false⟩

/-- `speakWithLMNT` of src/app/components/VoiceRecognition.tsx. On any
failure the `catch` block first resets both flags, then attempts the
browser-TTS fallback (guarded by `window.speechSynthesis`), whose own
failure resets the speaking flag again. -/
def speakWithLMNT (text : String) (env : SpeakEnv) : SpeakState :=
  if !env.audioElementPresent then idleState
  else
    match env.outcome with
    | .ok =>
      -- onSpeakingChange(true); ... fetch ok; onLmntLoadingChange(false);
      -- audioElement.play() with onended/onerror handlers
      ⟨true, false, true, true, none, false⟩
    | _ =>
      -- catch: onSpeakingChange(false); onLmntLoadingChange(false);
      -- then fallback to browser TTS with the same text
      if env.speechSynthAvailable then
        if env.fallbackThrows then ⟨false, false, true, false, none, false⟩
        else ⟨false, false, true, false, some text, true⟩
      else ⟨false, false, true, false, none, false⟩

/-- `speakWithLMNT` of the src/unnamed/part_005 variant. Its inner `catch`
resets only the loading flag before the browser-TTS fallback, so the
speaking flag stays up while the fallback utterance speaks (its handlers
reset it); if the fallback throws, the `catch` resets the speaking flag. -/
def speakWithLMNTp5 (text : String) (env : SpeakEnv) : SpeakState :=
  if !env.audioElementPresent then idleState
  else
    match env.outcome with
    | .ok => ⟨true, false, true, true, none, false⟩
    | _ =>
      -- catch (fetch/timeout): onLmntLoadingChange(false); fallback TTS
      if env.speechSynthAvailable && !env.fallbackThrows then
        ⟨true, false, true, false, some text, true⟩
      else ⟨false, false, true, false, none, false⟩

/-! ## Timeout-bounded fetch (src/app/utils/apiUtils.ts lines 18-52) -/

/-- Outcome of the wrapped `fetch`. -/
inductive FetchOutcome where
  | success (contentType : String) (body : Json)
  | httpError (status : Nat)
  | abortTimeout
  | networkError

/-- Which cancellation signal the `fetch` call is given:
`options.signal || controller?.signal`. -/
inductive SignalSource where
  | external
  | internal
deriving DecidableEq

/-- Environment of one `fetchWithTimeout` call. -/
structure FetchEnv where
  externalSignal : Bool
  outcome : FetchOutcome

/-- Failure classification of `fetchWithTimeout`. -/
inductive FetchErr where
  | apiError (status : Nat)
  | aborted
  | network
deriving DecidableEq

/-- Observable trace of one `fetchWithTimeout` call. -/
structure FetchTrace where
  timerStarted : Bool
  timerCleared : Bool
  signalUsed : SignalSource
  result : Except FetchErr Json

/-- The body of the `try` block: `fetch`, the `response.ok` check, and the
content-type dispatch (the parsed body is passed through unchanged). -/
def fetchTryBlock (outcome : FetchOutcome) : Except FetchErr Json :=
  match outcome with
  | .success _ body => .ok body
  | .httpError status => .error (.apiError status)
  | .abortTimeout => .error .aborted
  | .networkError => .error .network

/-- The `finally` clause: `if (timeoutId) clearTimeout(timeoutId)`. -/
def finallyClearTimer (timeoutId : Option Nat) (t : FetchTrace) : FetchTrace :=
  if timeoutId.isSome then { t with timerCleared := true } else t

/-- `fetchWithTimeout`: a timeout controller and timer are created only
when the caller supplied no signal; the `finally` clause clears the timer
on success, provider error and abort alike. -/
def fetchWithTimeout (env : FetchEnv) : FetchTrace :=
  let controller : Option Unit := if env.externalSignal then none else some ()
  let timeoutId : Option Nat := match controller with
    | some _ => some 1
    | none => none
  let signalUsed := if env.externalSignal then SignalSource.external else SignalSource.internal
  finallyClearTimer timeoutId
    ⟨timeoutId.isSome, false, signalUsed, fetchTryBlock env.outcome⟩

/-! ## HTTP validation prefixes of the two POST routes -/

/-- Either an early 400/500 envelope or the decision to proceed toward the
provider call. -/
inductive RoutePrefix (α : Type) where
  | badRequest (status : Nat) (err : String)
  | proceed (payload : α)

/-- The chat endpoint validation (src/app/api/openai/route.ts lines 83-91):
`if (!prompt && !messages) return 400`; the provider client is constructed
only on the `proceed` side. -/
def openaiValidate (prompt messages : Json) : RoutePrefix (Json × Json) :=
  if !truthy prompt && !truthy messages then
    .badRequest 400 "Either prompt or messages array is required"
  else .proceed (prompt, messages)

/-- The speech endpoint validation (src/app/api/lmnt/route.ts lines 9-16):
`if (!text) return 400`, for any supplied voice. -/
def lmntValidate (text _voice : Json) : RoutePrefix Json :=
  if !truthy text then .badRequest 400 "Text is required"
  else .proceed text

/-! ## Theorems -/

/-- C1 (counterexample): the claim fails for the audio cache. An audio
entry stored at time 0 is still returned by the cached LMNT route lookup
at query time `LMNT_CACHE_EXPIRATION` (age equal to the configured
expiration, not yet swept), although the claim requires it to be treated
as absent for every age `≥` the expiration. -/
theorem c1_counterexample :
    lmntCacheGet [("lily:Hello", ⟨[7], 0⟩)] "lily:Hello" = some ⟨[7], 0⟩ ∧
    LMNT_CACHE_EXPIRATION - 0 ≥ LMNT_CACHE_EXPIRATION := by
  exact ⟨rfl, by decide⟩

/-- C1 (amended): the expiry bound holds for the chat cache — a stored
entry is returned by `get` exactly when its age is strictly below
`OPENAI_CACHE_EXPIRATION` — while the audio cache `get` returns any entry
that is still present, regardless of its age. -/
theorem c1_theorem :
    ∀ (m : List (String × OpenAICacheEntry)) (k : String) (now : Int)
      (e : OpenAICacheEntry), jsMapGet m k = some e →
    (now - e.timestamp < OPENAI_CACHE_EXPIRATION →
      openaiCacheGet m k now = some e.response) ∧
    (now - e.timestamp ≥ OPENAI_CACHE_EXPIRATION →
      openaiCacheGet m k now = none) ∧
    (∀ (m2 : List (String × LmntCacheEntry)) (k2 : String)
      (e2 : LmntCacheEntry), jsMapGet m2 k2 = some e2 →
      lmntCacheGet m2 k2 = some e2) := by
  intro m k now e hfind
  refine ⟨?_, ?_, ?_⟩
  · intro hfresh
    simp [openaiCacheGet, hfind, hfresh]
  · intro hstale
    simp [openaiCacheGet, hfind]
    omega
  · intro m2 k2 e2 hfind2
    simp [lmntCacheGet, hfind2]

/-- C1 (witness): the amended theorem applied to a one-entry chat cache at
a fresh and at a stale query time. -/
theorem c1_witness :
    openaiCacheGet [("k", ⟨.str "r", 0⟩)] "k" 10 = some (.str "r") ∧
    openaiCacheGet [("k", ⟨.str "r", 0⟩)] "k" 300000 = none ∧
    lmntCacheGet [("a", ⟨[1], 5⟩)] "a" = some ⟨[1], 5⟩ := by
  refine ⟨?_, ?_, ?_⟩
  · exact (c1_theorem [("k", ⟨.str "r", 0⟩)] "k" 10 ⟨.str "r", 0⟩ rfl).1 (by decide)
  · exact (c1_theorem [("k", ⟨.str "r", 0⟩)] "k" 300000 ⟨.str "r", 0⟩ rfl).2.1 (by decide)
  · exact (c1_theorem [("k", ⟨.str "r", 0⟩)] "k" 10 ⟨.str "r", 0⟩ rfl).2.2
      [("a", ⟨[1], 5⟩)] "a" ⟨[1], 5⟩ rfl

/-- C3: with parallel mode enabled, the selection over the settled pair is
exhaustive and deterministic — fallback result when only the fallback
succeeded, the 500 error envelope when both failed, the primary result
when both succeeded. -/
theorem c3_theorem :
    ∀ (primary fallback : Except Unit Json) (cp cf : Json),
    (primary = .error () → fallback = .ok cf → truthy cf = true →
      chatHttpResult primary fallback = ⟨200, cf⟩) ∧
    (primary = .error () → fallback = .error () →
      chatHttpResult primary fallback =
        ⟨500, .obj [("error", .str "Failed to process request")]⟩) ∧
    (primary = .ok cp → truthy cp = true →
      chatHttpResult primary fallback = ⟨200, cp⟩) := by
  intro primary fallback cp cf
  have hnull : truthy Json.null = false := rfl
  refine ⟨?_, ?_, ?_⟩
  · rintro rfl rfl hf
    simp [chatHttpResult, parallelSelect, catchToNull, hnull, hf]
  · rintro rfl rfl
    simp [chatHttpResult, parallelSelect, catchToNull, hnull]
  · rintro rfl hp
    simp [chatHttpResult, parallelSelect, catchToNull, hp]

/-- C3 (witness): the selection at concrete outcome pairs. -/
theorem c3_witness :
    chatHttpResult (.error ()) (.ok (.obj [("id", .str "f")])) =
      ⟨200, .obj [("id", .str "f")]⟩ ∧
    chatHttpResult (.error ()) (.error ()) =
      ⟨500, .obj [("error", .str "Failed to process request")]⟩ ∧
    chatHttpResult (.ok (.obj [("id", .str "p")])) (.ok (.obj [("id", .str "f")])) =
      ⟨200, .obj [("id", .str "p")]⟩ := by
  refine ⟨?_, ?_, ?_⟩
  · exact (c3_theorem (.error ()) (.ok (.obj [("id", .str "f")]))
      (.obj []) (.obj [("id", .str "f")])).1 rfl rfl rfl
  · exact (c3_theorem (.error ()) (.error ()) (.obj []) (.obj [])).2.1 rfl rfl
  · exact (c3_theorem (.ok (.obj [("id", .str "p")])) (.ok (.obj [("id", .str "f")]))
      (.obj [("id", .str "p")]) (.obj [("id", .str "f")])).2.2 rfl rfl

/-- C5: the claim states the intended mobile suppression of the network
voice (the configuration flag `DISABLE_LMNT_ON_MOBILE` is `true`), and the
src/unnamed/part_005 variant of `speak` implements it, but the live
`speak` of src/app/components/VoiceRecognition.tsx routes the `lmnt`
preference to `speakWithLMNT` — which issues the network speech call —
with no mobile test at all: evaluating the code at
`preferredGender = "lmnt"`, mobile device, speech synthesis available. -/
theorem c5_theorem :
    DISABLE_LMNT_ON_MOBILE = true ∧
    speakVR "lmnt" true true = SpeakRoute.lmntNetwork ∧
    (speakWithLMNT "Hello" ⟨true, .ok, true, false⟩).networkCallIssued = true ∧
    speakP5 "lmnt" true true = SpeakRoute.browserTTS := by
  refine ⟨rfl, rfl, rfl, rfl⟩

/-- C9: the timeout-bounded fetch clears its timer on every outcome
(success, provider error, timeout abort, network error), and when the
caller supplies an external cancellation signal it passes that signal to
`fetch` and starts no timer of its own. -/
theorem c9_theorem :
    ∀ env : FetchEnv,
    ((fetchWithTimeout env).timerStarted = true →
      (fetchWithTimeout env).timerCleared = true) ∧
    (env.externalSignal = true →
      (fetchWithTimeout env).timerStarted = false ∧
      (fetchWithTimeout env).signalUsed = SignalSource.external) ∧
    (env.externalSignal = false →
      (fetchWithTimeout env).timerStarted = true ∧
      (fetchWithTimeout env).timerCleared = true ∧
      (fetchWithTimeout env).signalUsed = SignalSource.internal) := by
  intro env
  obtain ⟨ext, outcome⟩ := env
  cases ext <;>
    simp [fetchWithTimeout, finallyClearTimer]

/-- C9 (witness): the theorem applied to a timed-out call without an
external signal and to a call with an external signal. -/
theorem c9_witness :
    (fetchWithTimeout ⟨false, .abortTimeout⟩).timerStarted = true ∧
    (fetchWithTimeout ⟨false, .abortTimeout⟩).timerCleared = true ∧
    (fetchWithTimeout ⟨true, .success "application/json" (.obj [])⟩).timerStarted = false ∧
    (fetchWithTimeout ⟨true, .success "application/json" (.obj [])⟩).signalUsed =
      SignalSource.external := by
  refine ⟨?_, ?_, ?_, ?_⟩
  · exact ((c9_theorem ⟨false, .abortTimeout⟩).2.2 rfl).1
  · exact ((c9_theorem ⟨false, .abortTimeout⟩).2.2 rfl).2.1
  · exact ((c9_theorem ⟨true, .success "application/json" (.obj [])⟩).2.1 rfl).1
  · exact ((c9_theorem ⟨true, .success "application/json" (.obj [])⟩).2.1 rfl).2

/-- C10: an empty-string `prompt` with absent `messages`, and an
empty-string `text`, are falsy and take the same early-400 path as absent
fields; neither handler reaches the provider-call side of the route. -/
theorem c10_theorem :
    ∀ voice : Json,
    openaiValidate (.str "") .undefined =
      .badRequest 400 "Either prompt or messages array is required" ∧
    (∀ payload, openaiValidate (.str "") .undefined ≠ .proceed payload) ∧
    lmntValidate (.str "") voice = .badRequest 400 "Text is required" ∧
    (∀ payload, lmntValidate (.str "") voice ≠ .proceed payload) := by
  intro voice
  refine ⟨rfl, ?_, rfl, ?_⟩
  · intro payload h
    simp [openaiValidate, truthy] at h
  · intro payload h
    simp [lmntValidate, truthy] at h

/-- C8: on every failure of the network speech path (timeout, network
error, provider error), both `speakWithLMNT` variants reset the loading
flag, never start playback of network audio, and hand the same text to the
on-device fallback when it is available and does not throw; in the
VoiceRecognition.tsx variant the speaking flag is reset outright, and in
the part_005 variant it is either reset or the fallback utterance carries
the handlers that reset it, so no failure path leaves the state stuck. -/
theorem c8_theorem :
    ∀ (text : String) (env : SpeakEnv),
    env.audioElementPresent = true → isNetFailure env.outcome = true →
    (speakWithLMNT text env).lmntLoading = false ∧
    (speakWithLMNT text env).networkPlaybackStarted = false ∧
    (speakWithLMNT text env).speaking = false ∧
    (speakWithLMNTp5 text env).lmntLoading = false ∧
    (speakWithLMNTp5 text env).networkPlaybackStarted = false ∧
    (env.speechSynthAvailable = true → env.fallbackThrows = false →
      (speakWithLMNT text env).fallbackSpoken = some text ∧
      (speakWithLMNT text env).fallbackHandlersReset = true ∧
      (speakWithLMNTp5 text env).fallbackSpoken = some text ∧
      (speakWithLMNTp5 text env).fallbackHandlersReset = true) ∧
    ((speakWithLMNTp5 text env).speaking = true →
      (speakWithLMNTp5 text env).fallbackHandlersReset = true) ∧
    ((env.speechSynthAvailable = false ∨ env.fallbackThrows = true) →
      (speakWithLMNTp5 text env).speaking = false) := by
  intro text env hpresent hfail
  obtain ⟨present, outcome, synth, throws⟩ := env
  subst hpresent
  cases outcome <;> simp [isNetFailure] at hfail <;>
    cases synth <;> cases throws <;>
      simp [speakWithLMNT, speakWithLMNTp5]

/-- C8 (witness): the spec scenario — a network timeout on a present audio
element with working on-device synthesis falls back to speaking the same
text and leaves no flag stuck. -/
theorem c8_witness :
    (speakWithLMNT "Hello" ⟨true, .timeout, true, false⟩).fallbackSpoken = some "Hello" ∧
    (speakWithLMNT "Hello" ⟨true, .timeout, true, false⟩).lmntLoading = false ∧
    (speakWithLMNTp5 "Hello" ⟨true, .timeout, true, false⟩).fallbackSpoken = some "Hello" ∧
    (speakWithLMNTp5 "Hello" ⟨true, .timeout, true, false⟩).networkPlaybackStarted = false := by
  have h := c8_theorem "Hello" ⟨true, .timeout, true, false⟩ rfl rfl
  exact ⟨(h.2.2.2.2.2.1 rfl rfl).1, h.1, (h.2.2.2.2.2.1 rfl rfl).2.2.1, h.2.2.2.2.1⟩

/-! ### Cache capacity lemmas (for C2) -/

/-- Invariant of a route cache: within capacity, duplicate-free keys, and
no empty-string key (both routes derive keys that are never empty, so the
falsy-key quirk of the inlined eviction is unreachable). -/
def goodCache (cap : Nat) (m : List (String × α)) : Prop :=
  m.length ≤ cap ∧ (m.map Prod.fst).Nodup ∧ ∀ p ∈ m, p.1 ≠ ""

lemma jsMapSet_keys (m : List (String × α)) (k : String) (v : α) :
    (jsMapSet m k v).map Prod.fst =
      if m.any (fun p => p.1 == k) then m.map Prod.fst
      else m.map Prod.fst ++ [k] := by
  unfold jsMapSet
  split
  · rw [List.map_map]
    apply List.map_congr_left
    intro p _
    by_cases h : p.1 == k
    · simp only [Function.comp_apply, h, if_true]
      exact (eq_of_beq h).symm
    · rw [Function.comp_apply, if_neg (by simpa using h)]
  · simp

lemma jsMapSet_length (m : List (String × α)) (k : String) (v : α) :
    (jsMapSet m k v).length =
      if m.any (fun p => p.1 == k) then m.length else m.length + 1 := by
  unfold jsMapSet
  split <;> simp

lemma jsMapSet_values (m : List (String × α)) (k : String) (v : α) :
    ∀ p ∈ jsMapSet m k v, p ∈ m ∨ p = (k, v) := by
  unfold jsMapSet
  split
  · intro p hp
    obtain ⟨q, hq, hqp⟩ := List.mem_map.mp hp
    by_cases h : q.1 == k
    · right
      simp only [h, if_true] at hqp
      exact hqp.symm
    · left
      simp only [h, if_false, Bool.false_eq_true] at hqp
      rw [← hqp]
      exact hq
  · intro p hp
    rcases List.mem_append.mp hp with h | h
    · exact Or.inl h
    · simp only [List.mem_singleton] at h
      exact Or.inr h

lemma jsMapDelete_cons_self (k0 : String) (v0 : α) (t : List (String × α))
    (h : k0 ∉ t.map Prod.fst) : jsMapDelete ((k0, v0) :: t) k0 = t := by
  unfold jsMapDelete
  simp only [List.filter_cons]
  have h0 : ¬ ((k0, v0).1 ≠ k0) := by simp
  simp only [h0]
  rw [List.filter_eq_self.mpr]
  · simp
  · intro p hp
    have : p.1 ≠ k0 := by
      intro hpk
      exact h (List.mem_map.mpr ⟨p, hp, hpk⟩)
    simpa using this


lemma cachePut_good (cap : Nat) (m : List (String × α)) (k : String) (v : α)
    (hcap : 0 < cap) (hm : goodCache cap m) (hk : k ≠ "") :
    goodCache cap (cachePut cap m k v) := by
  obtain ⟨hlen, hnodup, hne⟩ := hm
  have step : ∀ m1 : List (String × α), m1.length < cap →
      (m1.map Prod.fst).Nodup → (∀ p ∈ m1, p.1 ≠ "") →
      goodCache cap (jsMapSet m1 k v) := by
    intro m1 h1 h3 h4
    refine ⟨?_, ?_, ?_⟩
    · rw [jsMapSet_length]
      split <;> omega
    · rw [jsMapSet_keys]
      split
      · exact h3
      · rename_i hany
        have hnotin : k ∉ m1.map Prod.fst := by
          intro hkin
          obtain ⟨p, hp, hpk⟩ := List.mem_map.mp hkin
          exact hany (List.any_eq_true.mpr ⟨p, hp, by simp [hpk]⟩)
        simp [List.nodup_append, h3, hnotin]
    · intro p hp
      rcases jsMapSet_values m1 k v p hp with h | h
      · exact h4 p h
      · rw [h]
        exact hk
  unfold cachePut
  by_cases hfull : m.length ≥ cap
  · have hlen' : m.length = cap := le_antisymm hlen hfull
    have hmne : m ≠ [] := by
      intro h
      rw [h] at hlen'
      simp at hlen'
      omega
    obtain ⟨⟨k0, v0⟩, t, rfl⟩ := List.exists_cons_of_ne_nil hmne
    have hk0 : k0 ≠ "" := hne (k0, v0) (List.mem_cons_self _ _)
    have hk0t : k0 ∉ t.map Prod.fst := by
      simpa using (List.nodup_cons.mp hnodup).1
    simp only [hfull, if_true, jsMapOldestKey, List.head?_cons, Option.map_some',
      if_pos hk0, jsMapDelete_cons_self k0 v0 t hk0t]
    apply step
    · simp only [List.length_cons] at hlen'
      omega
    · exact (List.nodup_cons.mp hnodup).2
    · intro p hp
      exact hne p (List.mem_cons_of_mem _ hp)
  · simp only [if_neg hfull]
    apply step
    · omega
    · exact hnodup
    · exact hne

lemma putMany_aux_good (cap : Nat) (hcap : 0 < cap) :
    ∀ (ops : List (String × α)) (m : List (String × α)),
    goodCache cap m → (∀ p ∈ ops, p.1 ≠ "") →
    goodCache cap (ops.foldl (fun acc p => cachePut cap acc p.1 p.2) m) := by
  intro ops
  induction ops with
  | nil => intro m hm _; exact hm
  | cons p rest ih =>
    intro m hm hops
    simp only [List.foldl_cons]
    apply ih
    · exact cachePut_good cap m p.1 p.2 hcap hm (hops p (List.mem_cons_self _ _))
    · intro q hq
      exact hops q (List.mem_cons_of_mem _ hq)

lemma cachePut_evict (cap : Nat) (m : List (String × α)) (k : String) (v : α)
    (hm : goodCache cap m) (hlen : m.length = cap) (hcap : 0 < cap)
    (hnew : k ∉ m.map Prod.fst) :
    cachePut cap m k v = m.tail ++ [(k, v)] := by
  obtain ⟨_, hnodup, hne⟩ := hm
  have hmne : m ≠ [] := by
    intro h
    rw [h] at hlen
    simp at hlen
    omega
  obtain ⟨⟨k0, v0⟩, t, rfl⟩ := List.exists_cons_of_ne_nil hmne
  have hk0 : k0 ≠ "" := hne (k0, v0) (List.mem_cons_self _ _)
  have hk0t : k0 ∉ t.map Prod.fst := by
    simpa using (List.nodup_cons.mp hnodup).1
  have hfull : ((k0, v0) :: t).length ≥ cap := by
    rw [hlen]
  unfold cachePut
  simp only [hfull, if_true, jsMapOldestKey, List.head?_cons, Option.map_some',
    if_pos hk0, jsMapDelete_cons_self k0 v0 t hk0t]
  have hnott : ¬ t.any (fun p => p.1 == k) := by
    intro hany
    obtain ⟨p, hp, hpk⟩ := List.any_eq_true.mp hany
    apply hnew
    apply List.mem_map.mpr
    exact ⟨p, List.mem_cons_of_mem _ hp, eq_of_beq hpk⟩
  unfold jsMapSet
  simp only [hnott, if_false]
  rfl

/-- C2: for every sequence of `put` operations (with the non-empty keys
both routes produce) on a cache of positive capacity `cap`, the live entry
count after each step never exceeds `cap`; and when an insert of a fresh
key finds the cache full, exactly the earliest-inserted entry (the head of
the insertion order) is removed and the new entry appended. -/
theorem c2_theorem :
    ∀ (α : Type) (cap : Nat) (ops : List (String × α)) (n : Nat),
    0 < cap → (∀ p ∈ ops, p.1 ≠ "") →
    (putMany cap (ops.take n)).length ≤ cap ∧
    (∀ (m : List (String × α)) (k : String) (v : α),
      goodCache cap m → m.length = cap → k ∉ m.map Prod.fst →
      cachePut cap m k v = m.tail ++ [(k, v)]) := by
  intro α cap ops n hcap hops
  constructor
  · have h := putMany_aux_good cap hcap (ops.take n) []
      ⟨by simp, by simp, by simp⟩
      (fun p hp => hops p (List.take_subset n ops hp))
    exact h.1
  · intro m k v hm hlen hnew
    exact cachePut_evict cap m k v hm hlen hcap hnew

/-- C2 (witness): the spec scenario — capacity 2, inserting keys A, B, C
in order leaves exactly B and C, and the count never exceeds 2. -/
theorem c2_witness :
    (putMany 2 [("A", (1 : Nat)), ("B", 2), ("C", 3)]).length ≤ 2 ∧
    cachePut 2 [("A", (1 : Nat)), ("B", 2)] "C" 3 = [("B", 2), ("C", 3)] := by
  have h := c2_theorem Nat 2 [("A", 1), ("B", 2), ("C", 3)] 3 (by decide)
    (by decide)
  refine ⟨h.1, ?_⟩
  have h2 := h.2 [("A", 1), ("B", 2)] "C" 3
    ⟨by decide, by decide, by decide⟩ (by decide) (by decide)
  simpa using h2

/-! ### Cache-key normalization lemmas (for C4 and C7) -/

/-- Two boundary messages that differ at most by the `system` vs
`developer` role label, with identical content. -/
def roleFlip (a b : InMsg) : Prop :=
  a.content = b.content ∧
    (a.role = b.role ∨ (a.role = "system" ∧ b.role = "developer") ∨
      (a.role = "developer" ∧ b.role = "system"))

lemma convertMsg_roleFlip (a b : InMsg) (h : roleFlip a b) :
    convertMsg a = convertMsg b := by
  obtain ⟨hc, hr | ⟨ha, hb⟩ | ⟨ha, hb⟩⟩ := h
  · unfold convertMsg
    rw [hc, hr]
  · unfold convertMsg
    rw [hc, ha, hb]
    rfl
  · unfold convertMsg
    rw [hc, ha, hb]
    rfl

lemma map_convertMsg_roleFlip (A B : List InMsg) (h : List.Forall₂ roleFlip A B) :
    A.map convertMsg = B.map convertMsg := by
  induction h with
  | nil => rfl
  | cons hab _ ih =>
    simp only [List.map_cons, ih, convertMsg_roleFlip _ _ hab]

/-- C4 (amended): role aliasing does produce identical derived cache keys
whenever the default-prompt prepend triggers for both lists or for
neither, i.e. whenever the two lists agree on containing some
`system`-labelled message; when the flipped position carries the only
`system` label, the `developer`-labelled list gets the default system
prompt prepended and the keys differ (see the counterexample). -/
theorem c4_theorem :
    ∀ A B : List InMsg, List.Forall₂ roleFlip A B →
    hasSystem A = hasSystem B →
    derivedCacheKey A = derivedCacheKey B := by
  intro A B hflip hsys
  unfold derivedCacheKey formatMessages
  rw [map_convertMsg_roleFlip A B hflip, hsys]

/-- C4 (witness): two lists flipping `system`/`developer` at the head,
each containing a `system` message elsewhere, normalize to the same key. -/
theorem c4_witness :
    derivedCacheKey [⟨"system", "S"⟩, ⟨"system", "T"⟩] =
      derivedCacheKey [⟨"developer", "S"⟩, ⟨"system", "T"⟩] := by
  apply c4_theorem
  · exact .cons (by constructor <;> simp) (.cons (by constructor <;> simp) .nil)
  · rfl

lemma intercalate_go_append (s : String) :
    ∀ (l : List String) (a b : String),
    String.intercalate.go (a ++ b) s l = a ++ String.intercalate.go b s l := by
  intro l
  induction l with
  | nil =>
    intro a b
    rfl
  | cons x xs ih =>
    intro a b
    show String.intercalate.go (a ++ b ++ s ++ x) s xs =
      a ++ String.intercalate.go (b ++ s ++ x) s xs
    rw [String.append_assoc a b s, String.append_assoc a (b ++ s) x]
    exact ih a (b ++ s ++ x)

lemma intercalate_cons (s a : String) (l : List String) (h : l ≠ []) :
    String.intercalate s (a :: l) = a ++ s ++ String.intercalate s l := by
  obtain ⟨x, xs, rfl⟩ := List.exists_cons_of_ne_nil h
  show String.intercalate.go a s (x :: xs) = a ++ s ++ String.intercalate.go x s xs
  show String.intercalate.go (a ++ s ++ x) s xs = a ++ s ++ String.intercalate.go x s xs
  exact intercalate_go_append s xs (a ++ s) x

lemma generateCacheKey_cons_length (m : ApiMessage) (rest : List ApiMessage)
    (h : rest ≠ []) :
    (generateCacheKey (m :: rest)).length =
      (keyEntry m).length + 1 + (generateCacheKey rest).length := by
  unfold generateCacheKey
  rw [List.map_cons, intercalate_cons "," (keyEntry m) (rest.map keyEntry)
    (by simpa using h)]
  simp only [String.length_append]
  have hcomma : ("," : String).length = 1 := rfl
  have hbr : ("[" : String).length = 1 := rfl
  rw [hcomma, hbr]
  omega

/-- C4 (counterexample): the claim fails as stated. The lists
`[system "You are helpful", user "Hello"]` and
`[developer "You are helpful", user "Hello"]` differ only by the
`system`/`developer` label at position 0 with identical contents, yet the
second list triggers the default-prompt prepend (its `some system` test
fails) and its derived cache key is strictly longer, hence different. -/
theorem c4_counterexample :
    List.Forall₂ roleFlip [⟨"system", "You are helpful"⟩, ⟨"user", "Hello"⟩]
      [⟨"developer", "You are helpful"⟩, ⟨"user", "Hello"⟩] ∧
    derivedCacheKey [⟨"system", "You are helpful"⟩, ⟨"user", "Hello"⟩] ≠
      derivedCacheKey [⟨"developer", "You are helpful"⟩, ⟨"user", "Hello"⟩] := by
  constructor
  · exact .cons (by constructor <;> simp) (.cons (by constructor <;> simp) .nil)
  · have hA : derivedCacheKey [⟨"system", "You are helpful"⟩, ⟨"user", "Hello"⟩] =
        generateCacheKey [⟨"developer", "You are helpful"⟩, ⟨"user", "Hello"⟩] := rfl
    have hB : derivedCacheKey [⟨"developer", "You are helpful"⟩, ⟨"user", "Hello"⟩] =
        generateCacheKey (defaultSystemMessage ::
          [⟨"developer", "You are helpful"⟩, ⟨"user", "Hello"⟩]) := rfl
    rw [hA, hB]
    intro heq
    have hlen := congrArg String.length heq
    rw [generateCacheKey_cons_length defaultSystemMessage
      [⟨"developer", "You are helpful"⟩, ⟨"user", "Hello"⟩] (by simp)] at hlen
    omega

/-- The benign input shapes for the leading-system-prompt property: an
empty list, or a `system` head followed only by `user`/`assistant`
messages (the shape the client actually sends). -/
def leadingOk (msgs : List InMsg) : Bool :=
  match msgs with
  | [] => true
  | h :: t => h.role == "system" &&
      t.all (fun m => m.role == "user" || m.role == "assistant")

/-- Number of system-prompt messages (role `developer` after formatting)
in a formatted list. -/
def countSystemPrompt (l : List ApiMessage) : Nat :=
  l.countP (fun m => m.role == "developer")

/-- C7 (amended): the orchestrator prepends the default system prompt
exactly when the input carries no `system`-role message and never adds a
second one; the stronger reading — that the result always has exactly one
leading system-prompt message — holds for the empty input and for inputs
whose `system` message leads and is followed only by `user`/`assistant`
messages, but not for arbitrary inputs (see the counterexample). -/
theorem c7_theorem :
    ∀ msgs : List InMsg,
    (hasSystem msgs = false →
      formatMessages msgs = defaultSystemMessage :: msgs.map convertMsg) ∧
    (hasSystem msgs = true → formatMessages msgs = msgs.map convertMsg) ∧
    (leadingOk msgs = true →
      (formatMessages msgs).head?.map ApiMessage.role = some "developer" ∧
      countSystemPrompt (formatMessages msgs) = 1) := by
  intro msgs
  refine ⟨?_, ?_, ?_⟩
  · intro h
    unfold formatMessages
    rw [h]
    rfl
  · intro h
    unfold formatMessages
    rw [h]
    rfl
  · intro h
    match msgs with
    | [] =>
      constructor <;> rfl
    | hd :: t =>
      simp only [leadingOk, Bool.and_eq_true, List.all_eq_true] at h
      obtain ⟨hhd, ht⟩ := h
      have hsys : hasSystem (hd :: t) = true := by
        unfold hasSystem
        simp only [List.any_cons, hhd, Bool.true_or]
      have hfmt : formatMessages (hd :: t) = convertMsg hd :: t.map convertMsg := by
        unfold formatMessages
        rw [hsys]
        rfl
      rw [hfmt]
      constructor
      · simp only [List.head?_cons, Option.map_some']
        unfold convertMsg
        rw [eq_of_beq hhd]
        rfl
      · unfold countSystemPrompt
        simp only [List.countP_cons]
        have hhd' : (convertMsg hd).role == "developer" := by
          unfold convertMsg
          rw [eq_of_beq hhd]
          rfl
        rw [List.countP_map]
        have hzero : t.countP ((fun m => m.role == "developer") ∘ convertMsg) = 0 := by
          apply List.countP_eq_zero.mpr
          intro m hm
          rcases (Bool.or_eq_true _ _).mp (ht m hm) with hu | ha
          · simp only [Function.comp_apply]
            unfold convertMsg
            rw [eq_of_beq hu]
            simp
          · simp only [Function.comp_apply]
            unfold convertMsg
            rw [eq_of_beq ha]
            simp
        rw [hzero, hhd']
        rfl

/-- C7 (counterexample): for the input `[user "Hello", system "Be
helpful"]` the handler (correctly) adds no second system prompt, but the
resulting list does not contain a leading system-prompt message — its head
keeps the `user` role — refuting the parenthetical universal reading of
the claim. -/
theorem c7_counterexample :
    hasSystem [⟨"user", "Hello"⟩, ⟨"system", "Be helpful"⟩] = true ∧
    formatMessages [⟨"user", "Hello"⟩, ⟨"system", "Be helpful"⟩] =
      [⟨"user", "Hello"⟩, ⟨"developer", "Be helpful"⟩] ∧
    (formatMessages [⟨"user", "Hello"⟩, ⟨"system", "Be helpful"⟩]).head?.map
      ApiMessage.role = some "user" ∧
    ("user" : String) ≠ "developer" := by
  refine ⟨rfl, rfl, rfl, by decide⟩

/-- C7 (witness): the amended theorem applied to a conversation with a
leading system message and to one with no system message. -/
theorem c7_witness :
    formatMessages [⟨"system", "S"⟩, ⟨"user", "u"⟩] =
      [⟨"developer", "S"⟩, ⟨"user", "u"⟩] ∧
    countSystemPrompt (formatMessages [⟨"system", "S"⟩, ⟨"user", "u"⟩]) = 1 ∧
    formatMessages [⟨"user", "u"⟩] =
      defaultSystemMessage :: [⟨"user", "u"⟩] := by
  refine ⟨?_, ?_, ?_⟩
  · exact (c7_theorem ([⟨"system", "S"⟩, ⟨"user", "u"⟩])).2.1 rfl
  · exact ((c7_theorem ([⟨"system", "S"⟩, ⟨"user", "u"⟩])).2.2 rfl).2
  · exact (c7_theorem ([⟨"user", "u"⟩])).1 rfl

/-! ### Normalizer totality lemmas (for C6) -/

lemma jget_ok_of_truthy (x : Json) (k : String) (h : truthy x = true) :
    ∃ v, jget x k = .ok v := by
  cases x <;> first
    | exact ⟨_, rfl⟩
    | exact absurd h (by simp [truthy])

lemma jindex_ok_of_truthy (x : Json) (i : Nat) (h : truthy x = true) :
    ∃ v, jindex x i = .ok v := by
  cases x <;> first
    | exact ⟨_, rfl⟩
    | exact absurd h (by simp [truthy])

lemma nestedArrayText_ok (content : Json) :
    ∃ r, nestedArrayText content = .ok r := by
  cases content <;> try exact ⟨none, rfl⟩
  case arr elems =>
    simp only [nestedArrayText]
    by_cases h : truthy (elems.getD 0 .undefined) = true
    · simp only [if_pos h]
      obtain ⟨t, ht⟩ := jget_ok_of_truthy _ "text" h
      simp only [ht]
      exact ⟨_, rfl⟩
    · simp only [if_neg h]
      exact ⟨none, rfl⟩

lemma extractO3_ok (choice message : Json) (hc : truthy choice = true) :
    ∃ v, extractO3 choice message = .ok v := by
  unfold extractO3
  by_cases hn : isNull message = true
  · simp only [if_pos hn]
    obtain ⟨content, hcontent⟩ := jget_ok_of_truthy choice "content" hc
    simp only [hcontent]
    by_cases htr : truthy content = true
    · simp only [if_pos htr]
      obtain ⟨r, hr⟩ := nestedArrayText_ok content
      simp only [hr]
      cases r with
      | some t => exact ⟨t, rfl⟩
      | none => cases content <;> exact ⟨_, rfl⟩
    · simp only [if_neg htr]
      exact ⟨_, rfl⟩
  · simp only [if_neg hn]
    exact ⟨_, rfl⟩

lemma extractFromChoice_ok (choice : Json) :
    ∃ v, extractFromChoice choice = .ok v := by
  cases hc : truthy choice with
  | false =>
    refine ⟨.str respErrNoResponse, ?_⟩
    simp [extractFromChoice, hc]
  | true =>
    unfold extractFromChoice
    rw [if_neg (by simp [hc])]
    obtain ⟨message, hmsg⟩ := jget_ok_of_truthy choice "message" hc
    simp only [hmsg]
    by_cases hm : truthy message = true
    · simp only [if_pos hm]
      obtain ⟨c, hcon⟩ := jget_ok_of_truthy message "content" hm
      simp only [hcon]
      by_cases htr : truthy c = true
      · simp only [if_pos htr]
        exact ⟨c, rfl⟩
      · simp only [if_neg htr]
        exact extractO3_ok choice message hc
    · simp only [if_neg hm]
      exact extractO3_ok choice message hc

lemma extractResponseText_ok (data : Json) :
    ∃ v, extractResponseText data = .ok v := by
  cases hd : truthy data with
  | false =>
    refine ⟨.str respErrNoResponse, ?_⟩
    simp [extractResponseText, hd]
  | true =>
    unfold extractResponseText
    rw [if_neg (by simp [hd])]
    obtain ⟨choices, hch⟩ := jget_ok_of_truthy data "choices" hd
    simp only [hch]
    by_cases hc : truthy choices = true
    · rw [if_neg (by simp [hc])]
      obtain ⟨choice, hchoice⟩ := jindex_ok_of_truthy choices 0 hc
      simp only [hchoice]
      exact extractFromChoice_ok choice
    · have hc' : truthy choices = false := by
        revert hc
        cases truthy choices <;> simp
      rw [if_pos (by simp [hc'])]
      exact ⟨_, rfl⟩

/-- C6 (amended): the normalizer is total — it never raises on any input
value — and recognized shapes with truthy string content yield the
contained text while null envelopes, missing choices and unrecognized
shapes yield the placeholder strings; however it returns the raw content
value, which need not be a string, when a recognized slot holds a truthy
non-string (see the counterexample). -/
theorem c6_theorem :
    (∀ d : Json, ∃ v, extractResponseText d = .ok v) ∧
    (∀ s : String, s ≠ "" →
      extractResponseText (.obj [("choices", .arr [.obj [("message",
        .obj [("content", .str s)])]])]) = .ok (.str s)) ∧
    (∀ s : String, s ≠ "" →
      extractResponseText (.obj [("choices", .arr [.obj [("message", .null),
        ("content", .str s)]])]) = .ok (.str s)) ∧
    extractResponseText .null = .ok (.str respErrNoResponse) ∧
    extractResponseText (.obj []) = .ok (.str respErrNoResponse) ∧
    extractResponseText (.obj [("choices", .arr [.obj [("message",
      .obj [("content", .str "")])]])]) = .ok (.str respErrBadFormat) := by
  refine ⟨extractResponseText_ok, ?_, ?_, rfl, rfl, rfl⟩
  · intro s hs
    have hts : truthy (.str s) = true := by simp [truthy, hs]
    simp [extractResponseText, extractFromChoice, jget, jindex, truthy,
      List.lookup, hts, hs]
  · intro s hs
    have hts : truthy (.str s) = true := by simp [truthy, hs]
    simp [extractResponseText, extractFromChoice, extractO3, nestedArrayText,
      isNull, jget, jindex, truthy, List.lookup, hts, hs]

/-- C6 (witness): the amended theorem applied to the standard shape with
text "Hi there!", the o3-mini shape, and a null envelope. -/
theorem c6_witness :
    extractResponseText (.obj [("choices", .arr [.obj [("message",
      .obj [("content", .str "Hi there!")])]])]) = .ok (.str "Hi there!") ∧
    extractResponseText (.obj [("choices", .arr [.obj [("message", .null),
      ("content", .str "Hello")]])]) = .ok (.str "Hello") ∧
    extractResponseText .null = .ok (.str respErrNoResponse) := by
  refine ⟨?_, ?_, ?_⟩
  · exact c6_theorem.2.1 "Hi there!" (by decide)
  · exact c6_theorem.2.2.1 "Hello" (by decide)
  · exact c6_theorem.2.2.2.1

/-- C6 (counterexample): the claim that the normalizer always returns a
string fails — for a response whose `choices[0].message.content` is the
(truthy, non-string) number 42, `extractResponseText` returns that number
itself, which equals no string value. -/
theorem c6_counterexample :
    extractResponseText (.obj [("choices", .arr [.obj [("message",
      .obj [("content", .num 42)])]])]) = .ok (.num 42) ∧
    ∀ s : String, Json.num 42 ≠ Json.str s := by
  refine ⟨rfl, ?_⟩
  intro s h
  exact Json.noConfusion h
